import Mathlib

/-!
# Verification of the `nullable` Go package

A shallow embedding of `nullable.go` (package `nullable`): a generic
`Nullable[T]` container with JSON/YAML codecs and `database/sql`
scan/value adapters, together with theorems settling the specification
claims about it.

Conventions of the embedding:

* Go's `Nullable[T]` struct becomes the Lean structure `Nullable α`
  with the same two fields `value : α` and `valid : Bool`.
* Pointer-receiver methods (`Scan`, `UnmarshalJSON`, `UnmarshalYAML`)
  become functions `state → inputs → state × Option GoError`; value
  receiver methods are pure functions of the receiver.
* The untyped `any` values crossing the database boundary are modelled
  by the inductive `DynVal`, a universe of Go runtime values none of
  which implements `driver.Valuer` or `sql.Scanner` (custom hooks are
  modelled separately, as optional functions in the environments).
* Machine integers are `Int`/`Nat` with explicit `% 2 ^ 64` wrapping
  where Go performs a wrapping conversion (`int64(rv.Uint())`).
* The platform is a 64-bit one (Go's `uint` and `int` are 64 bits wide),
  matching the platforms the package is built for in practice.
-/

namespace GoNullable

/-- Errors produced by the package: the sentinel `ErrUnsupportedConversion`
and `fmt.Errorf`/decoder errors carrying a message string. -/
inductive GoError where
  | unsupportedConversion
  | errMsg (s : String)
deriving DecidableEq, Repr

/-- The signed-integer kinds of `reflect`: `Int, Int8, Int16, Int32, Int64`.
`i` is the platform-sized `int` (64 bits here). -/
inductive IntKind where
  | i | i8 | i16 | i32 | i64
deriving DecidableEq, Repr

/-- The unsigned-integer kinds of `reflect`: `Uint, Uint8, Uint16, Uint32, Uint64`.
`u` is the platform-sized `uint` (64 bits here). -/
inductive UintKind where
  | u | u8 | u16 | u32 | u64
deriving DecidableEq, Repr

/-- Bit width of an unsigned kind on a 64-bit platform. -/
def uintWidth : UintKind → Nat
  | .u => 64
  | .u8 => 8
  | .u16 => 16
  | .u32 => 32
  | .u64 => 64

/-- Go runtime types (`reflect.Type`) of the values in the modelled
universe.  `tStructOther` stands for any struct type other than
`time.Time`, identified by its name; `tSliceOther` for a slice type
whose element kind is not `Uint8`. -/
inductive RType where
  | tInt (k : IntKind)
  | tUint (k : UintKind)
  | tFloat64
  | tBool
  | tString
  | tBytes
  | tTime
  | tStructOther (name : String)
  | tSliceOther (elem : String)
  | tPtr (t : RType)
deriving DecidableEq, Repr

/-- Go runtime values (`any`) crossing the database boundary.  Each value
carries enough to determine its `reflect` kind and type.  `dFloat64`
carries the float64 bit pattern, which every operation modelled here
passes through unchanged; `dTime` is an opaque `time.Time` (unix
nanoseconds); `dStruct name` is an opaque value of a non-`time.Time`
struct type; `dSlice elem` an opaque slice with non-byte element type;
`dPtrNil t` a typed nil pointer `(*t)(nil)`; `dPtr v` a non-nil pointer
to `v`.  None of these types implements `driver.Valuer` or
`sql.Scanner`. -/
inductive DynVal where
  | dInt (k : IntKind) (n : Int)
  | dUint (k : UintKind) (n : Nat)
  | dFloat64 (bits : Nat)
  | dBool (b : Bool)
  | dString (s : String)
  | dBytes (bs : List Nat)
  | dTime (t : Int)
  | dStruct (name : String)
  | dSlice (elem : String)
  | dPtrNil (t : RType)
  | dPtr (v : DynVal)
deriving DecidableEq, Repr

/-- `reflect.TypeOf` on the modelled universe. -/
def typeOf : DynVal → RType
  | .dInt k _ => .tInt k
  | .dUint k _ => .tUint k
  | .dFloat64 _ => .tFloat64
  | .dBool _ => .tBool
  | .dString _ => .tString
  | .dBytes _ => .tBytes
  | .dTime _ => .tTime
  | .dStruct name => .tStructOther name
  | .dSlice elem => .tSliceOther elem
  | .dPtrNil t => .tPtr t
  | .dPtr v => .tPtr (typeOf v)

/-- The driver values (`driver.Value`) the conversion produces; the nil
driver value is represented as `none` in `Option DriverValue`. -/
inductive DriverValue where
  | dvInt64 (n : Int)
  | dvFloat64 (bits : Nat)
  | dvBool (b : Bool)
  | dvBytes (bs : List Nat)
  | dvString (s : String)
  | dvTime (t : Int)
deriving DecidableEq, Repr

/-- Go's wrapping conversion `int64(u)` of a `uint64` value: reduce
modulo `2 ^ 64`, then reinterpret the high bit as the sign bit. -/
def toInt64 (n : Nat) : Int :=
  if n % 2 ^ 64 < 2 ^ 63 then (n % 2 ^ 64 : Nat) else (n % 2 ^ 64 : Nat) - 2 ^ 64

/-- `convertToDriverValue` from `nullable.go`: convert a runtime value to
a `driver.Value` by a `reflect.Kind` switch.  The leading
`driver.Valuer` type assertion of the source never fires on the
modelled universe (none of its types implements `driver.Valuer`).
Result is `Except error (Option DriverValue)` with `none` for the nil
driver value. -/
def convertToDriverValue : DynVal → Except GoError (Option DriverValue)
  | .dPtrNil _ => .ok none
  | .dPtr v => convertToDriverValue v
  | .dInt _ n => .ok (some (.dvInt64 n))
  | .dUint k n =>
    match k with
    | .u64 =>
      if n ≥ 2 ^ 63 then
        .error (.errMsg "uint64 values with high bit set are not supported")
      else
        .ok (some (.dvInt64 (n : Int)))
    | _ => .ok (some (.dvInt64 (toInt64 n)))
  | .dFloat64 bits => .ok (some (.dvFloat64 bits))
  | .dBool b => .ok (some (.dvBool b))
  | .dBytes bs => .ok (some (.dvBytes bs))
  | .dSlice elem => .error (.errMsg ("unsupported slice type: " ++ elem))
  | .dString s => .ok (some (.dvString s))
  | .dTime t => .ok (some (.dvTime t))
  | .dStruct name => .error (.errMsg ("unsupported struct type: " ++ name))

/-- `convertToType[T]` from `nullable.go`, for a `T` whose
`reflect.TypeOf(zero)` is `targetTy` (`none` when `T` is an interface
type, whose zero value carries no runtime type), whose zero value is
`zero`, and whose values are obtained from a matching runtime value by
`ofDyn` (the type assertion `value.(T)`).  Input `none` is the nil
`any`. -/
def convertToType {α : Type} (targetTy : Option RType) (zero : α) (ofDyn : DynVal → α) :
    Option DynVal → α × Option GoError
  | none => (zero, none)
  | some v =>
    if some (typeOf v) = targetTy then (ofDyn v, none)
    else (zero, some .unsupportedConversion)

/-- The struct `Nullable[T]` of `nullable.go`: a value of type `T` and a
validity flag. -/
structure Nullable (α : Type) where
  value : α
  valid : Bool
deriving DecidableEq, Repr

/-- `FromValue`: a present `Nullable` holding `v`. -/
def FromValue {α : Type} (v : α) : Nullable α :=
  { value := v, valid := true }

/-- `Null[T]()`: `Nullable[T]{valid: false}` — the omitted `value` field
is Go's zero value of `T`, passed here explicitly as `zero`. -/
def Null {α : Type} (zero : α) : Nullable α :=
  { value := zero, valid := false }

/-- `FromPointer`: from a possibly-nil pointer (`none` is nil); the nil
branch leaves `value` at the zero value of `T`. -/
def FromPointer {α : Type} (zero : α) (p : Option α) : Nullable α :=
  match p with
  | none => { value := zero, valid := false }
  | some v => { value := v, valid := true }

/-- `OrElse`: the value if valid, else the supplied default. -/
def OrElse {α : Type} (n : Nullable α) (defaultVal : α) : α :=
  if n.valid then n.value else defaultVal

/-- `GetValue`: the `value` field unconditionally. -/
def GetValue {α : Type} (n : Nullable α) : α :=
  n.value

/-- `IsNull`: whether the value is null. -/
def IsNull {α : Type} (n : Nullable α) : Bool :=
  !n.valid

/-- `HasValue`: whether a value is present. -/
def HasValue {α : Type} (n : Nullable α) : Bool :=
  n.valid

/-- The type-level data `Scan` needs about `T`: its zero value, whether
`*T` implements `sql.Scanner` (modelled as an optional function from the
current payload and the incoming driver value to the payload the
scanner leaves behind together with its error), `reflect.TypeOf` of the
zero value (`none` for interface types), and the type assertion
`value.(T)` applied to runtime values whose type matches. -/
structure ScanEnv (α : Type) where
  zero : α
  scanHook : Option (α → Option DynVal → α × Option GoError)
  targetTy : Option RType
  ofDyn : DynVal → α

/-- `Scan` from `nullable.go` (pointer receiver, modelled as
state-passing): nil driver value clears the instance; otherwise a
custom `sql.Scanner` on `*T` is delegated to; otherwise strict
same-type conversion via `convertToType`. -/
def Scan {α : Type} (env : ScanEnv α) (n : Nullable α) (value : Option DynVal) :
    Nullable α × Option GoError :=
  match value with
  | none => ({ value := env.zero, valid := false }, none)
  | some _ =>
    match env.scanHook with
    | some h =>
      let r := h n.value value
      match r.2 with
      | some e => ({ value := r.1, valid := false }, some e)
      | none => ({ value := r.1, valid := true }, none)
    | none =>
      let r := convertToType env.targetTy env.zero env.ofDyn value
      match r.2 with
      | some e => ({ value := r.1, valid := false }, some e)
      | none => ({ value := r.1, valid := true }, none)

/-- The type-level data `Value` needs about `T`: whether `T` implements
`driver.Valuer` (an optional function from the payload to the valuer's
result), and the injection of payloads into the runtime-value universe
used by `convertToDriverValue`. -/
structure ValueEnv (α : Type) where
  valueHook : Option (α → Except GoError (Option DriverValue))
  toDyn : α → DynVal

/-- `Value` from `nullable.go` (value receiver): absent instances yield
the nil driver value; a present payload implementing `driver.Valuer` is
delegated to; otherwise `convertToDriverValue` runs on the payload. -/
def Value {α : Type} (env : ValueEnv α) (n : Nullable α) :
    Except GoError (Option DriverValue) :=
  if n.valid = false then .ok none
  else
    match env.valueHook with
    | some h => h n.value
    | none => convertToDriverValue (env.toDyn n.value)

/-- The structural JSON codec `encoding/json` provides for a concrete
payload type `T`: its zero value, `json.Marshal` on values of `T`, and
`json.Unmarshal` into a `T` variable. -/
structure JsonCodec (α : Type) where
  zero : α
  marshal : α → Except GoError String
  unmarshal : String → Except GoError α

/-- `UnmarshalJSON` from `nullable.go` (pointer receiver, modelled as
state-passing).  The literal `null` token clears the instance; other
data is decoded into a fresh local variable, so a decode error leaves
the previous `value` field in place and only clears `valid`. -/
def UnmarshalJSON {α : Type} (c : JsonCodec α) (n : Nullable α) (data : String) :
    Nullable α × Option GoError :=
  if data = "null" then ({ value := c.zero, valid := false }, none)
  else
    match c.unmarshal data with
    | .error e => ({ value := n.value, valid := false }, some e)
    | .ok v => ({ value := v, valid := true }, none)

/-- `MarshalJSON` from `nullable.go`: absent instances marshal as
`json.Marshal(nil)`, which is the literal `null`; present instances
marshal their payload. -/
def MarshalJSON {α : Type} (c : JsonCodec α) (n : Nullable α) :
    Except GoError String :=
  if n.valid = false then .ok "null"
  else c.marshal n.value

/-- `UnmarshalYAML` from `nullable.go` (pointer receiver, modelled as
state-passing).  The framework callback decodes into a `*T` probe,
modelled by its outcome: an error, a nil probe (`ok none`, a null
scalar), or a produced value.  An error from the callback leaves the
previous `value` field in place and only clears `valid`. -/
def UnmarshalYAML {α : Type} (zero : α) (n : Nullable α)
    (unmarshal : Except GoError (Option α)) : Nullable α × Option GoError :=
  match unmarshal with
  | .error e => ({ value := n.value, valid := false }, some e)
  | .ok none => ({ value := zero, valid := false }, none)
  | .ok (some v) => ({ value := v, valid := true }, none)

/-- `MarshalYAML` from `nullable.go`: absent instances produce the nil
marker (`none`), present instances produce their payload, never an
error. -/
def MarshalYAML {α : Type} (n : Nullable α) : Option α × Option GoError :=
  if n.valid = false then (none, none)
  else (some n.value, none)

/-- The scan environment of a concrete (non-interface) `T` without a
custom `sql.Scanner`, working directly on the runtime-value universe:
`reflect.TypeOf(zero)` is the type of the zero value and the type
assertion is the identity. -/
def dynScanEnv (zeroD : DynVal) : ScanEnv DynVal :=
  { zero := zeroD, scanHook := none, targetTy := some (typeOf zeroD), ofDyn := id }

/-- The value environment of a concrete `T` without a custom
`driver.Valuer`, working directly on the runtime-value universe. -/
def dynValueEnv : ValueEnv DynVal :=
  { valueHook := none, toDyn := id }

/-- The scan environment of an interface payload type (such as `any`)
without a custom `sql.Scanner`: the zero value is the nil interface
(`none`), which carries no runtime type, so `reflect.TypeOf(zero)` is
nil (`targetTy = none`); a runtime value stored in the interface is the
value itself. -/
def ifaceScanEnv : ScanEnv (Option DynVal) :=
  { zero := none, scanHook := none, targetTy := none, ofDyn := some }

/-- `json.Unmarshal` into a Go `bool` variable, on the inputs exercised
here: the two boolean literals decode, anything else is a decode
error. -/
def boolUnmarshal (s : String) : Except GoError Bool :=
  if s = "true" then .ok true
  else if s = "false" then .ok false
  else .error (.errMsg ("json: cannot unmarshal into bool: " ++ s))

/-- The `encoding/json` codec of the Go type `bool` (zero value
`false`). -/
def boolCodec : JsonCodec Bool :=
  { zero := false
  , marshal := fun b => .ok (if b then "true" else "false")
  , unmarshal := boolUnmarshal }

/-- `json.Unmarshal` into a Go `*bool` variable: the `null` literal
leaves the pointer nil, the boolean literals allocate, anything else is
a decode error. -/
def optBoolUnmarshal (s : String) : Except GoError (Option Bool) :=
  if s = "null" then .ok none
  else if s = "true" then .ok (some true)
  else if s = "false" then .ok (some false)
  else .error (.errMsg ("json: cannot unmarshal into *bool: " ++ s))

/-- The `encoding/json` codec of the Go pointer type `*bool` (zero value
nil, i.e. `none`): a nil pointer marshals to the literal `null`. -/
def optBoolCodec : JsonCodec (Option Bool) :=
  { zero := none
  , marshal := fun v =>
      .ok (match v with
           | none => "null"
           | some b => if b then "true" else "false")
  , unmarshal := optBoolUnmarshal }

/-- A Go method call `n.OrElse(d)` on a variable holding `n`: the value
receiver operates on a copy, so the call returns its result and leaves
the caller's variable holding `n` unchanged. -/
def callOrElse {α : Type} (n : Nullable α) (d : α) : α × Nullable α :=
  (OrElse n d, n)

/-- A Go method call `n.GetValue()` (value receiver): result plus the
caller's variable, unchanged. -/
def callGetValue {α : Type} (n : Nullable α) : α × Nullable α :=
  (GetValue n, n)

/-- A Go method call `n.IsNull()` (value receiver). -/
def callIsNull {α : Type} (n : Nullable α) : Bool × Nullable α :=
  (IsNull n, n)

/-- A Go method call `n.HasValue()` (value receiver). -/
def callHasValue {α : Type} (n : Nullable α) : Bool × Nullable α :=
  (HasValue n, n)

/-- A Go method call `n.MarshalJSON()` (value receiver). -/
def callMarshalJSON {α : Type} (c : JsonCodec α) (n : Nullable α) :
    Except GoError String × Nullable α :=
  (MarshalJSON c n, n)

/-- A Go method call `n.MarshalYAML()` (value receiver). -/
def callMarshalYAML {α : Type} (n : Nullable α) :
    (Option α × Option GoError) × Nullable α :=
  (MarshalYAML n, n)

/-- A Go method call `n.Value()` (value receiver). -/
def callValue {α : Type} (env : ValueEnv α) (n : Nullable α) :
    Except GoError (Option DriverValue) × Nullable α :=
  (Value env n, n)

/-- The Go zero value of the struct `Nullable[T]` (an uninitialized
variable `var n Nullable[T]`): each field at its own zero value, so
`value = zero(T)` and `valid = false`. -/
def goZeroNullable {α : Type} (zero : α) : Nullable α :=
  { value := zero, valid := false }

/-- The value environment of the Go type `bool`: no custom
`driver.Valuer`; its runtime values are the boolean runtime values. -/
def boolValueEnv : ValueEnv Bool :=
  { valueHook := none, toDyn := .dBool }

/-- Helper: the `*bool` codec round-trips — decoding any output of its
encoder recovers the encoded value. -/
theorem optBoolCodec_roundtrip (v : Option Bool) (t : String)
    (h : optBoolCodec.marshal v = .ok t) : optBoolCodec.unmarshal t = .ok v := by
  rcases v with _ | b
  · injection h with h
    subst h
    rfl
  · rcases b <;>
      (injection h with h
       subst h
       rfl)

/-- C5: For every type `T` (with or without a custom `sql.Scanner` on
`*T`), `Scan(nil)` succeeds with no error and leaves the instance
absent with payload `zero(T)`. -/
theorem scan_nil_clears {α : Type} (env : ScanEnv α) (n : Nullable α) :
    Scan env n none = ({ value := env.zero, valid := false }, none) := rfl

/-- Witness for C5 at a concrete environment and instance. -/
theorem scan_nil_clears_witness :
    Scan (dynScanEnv (DynVal.dInt .i 0)) (FromValue (DynVal.dInt .i 5)) none =
      ({ value := DynVal.dInt .i 0, valid := false }, none) :=
  scan_nil_clears (dynScanEnv (DynVal.dInt .i 0)) (FromValue (DynVal.dInt .i 5))

/-- C6: For every type `T`, `Value()` on an absent `Nullable[T]` returns
the nil driver value with no error, whether or not `T` implements
`driver.Valuer`. -/
theorem value_absent_is_sql_null {α : Type} (env : ValueEnv α) (n : Nullable α)
    (h : n.valid = false) : Value env n = .ok none := by
  simp [Value, h]

/-- Witness for C6 at a concrete absent instance. -/
theorem value_absent_is_sql_null_witness :
    Value dynValueEnv { value := DynVal.dBool false, valid := false } = .ok none :=
  value_absent_is_sql_null dynValueEnv { value := DynVal.dBool false, valid := false } rfl

/-- C7: `OrElse` returns the payload when present (ignoring the
default), returns exactly the default when absent, and never mutates
the receiver. -/
theorem orElse_behavior {α : Type} (n : Nullable α) (d : α) :
    (n.valid = true → OrElse n d = n.value) ∧
    (n.valid = false → OrElse n d = d) ∧
    (callOrElse n d).2 = n := by
  refine ⟨fun h => ?_, fun h => ?_, rfl⟩ <;> simp [OrElse, h]

/-- Witness for C7 on a present and on an absent instance. -/
theorem orElse_behavior_witness :
    OrElse (FromValue (5 : Int)) 7 = 5 ∧ OrElse (Null (0 : Int)) 7 = 7 :=
  ⟨(orElse_behavior (FromValue (5 : Int)) 7).1 rfl,
   (orElse_behavior (Null (0 : Int)) 7).2.1 rfl⟩

/-- C8: When the payload type is an interface type (such as `any`)
without a custom `sql.Scanner`, `Scan` on any non-nil driver value
fails with `ErrUnsupportedConversion` and leaves the instance absent:
the zero interface carries no runtime type, so the exact-type
comparison in `convertToType` can never match. -/
theorem scan_interface_always_fails (v : DynVal) (n : Nullable (Option DynVal)) :
    Scan ifaceScanEnv n (some v) =
      ({ value := none, valid := false }, some GoError.unsupportedConversion) := by
  simp [Scan, ifaceScanEnv, convertToType]

/-- Witness for C8 at a concrete non-nil driver value. -/
theorem scan_interface_always_fails_witness :
    Scan ifaceScanEnv (Null (none : Option DynVal)) (some (DynVal.dString "hi")) =
      ({ value := none, valid := false }, some GoError.unsupportedConversion) :=
  scan_interface_always_fails (DynVal.dString "hi") (Null (none : Option DynVal))

/-- C9: The Go zero value of the struct `Nullable[T]` equals `Null[T]()`
(`valid` false, `value` the zero of `T`), so an uninitialized
`Nullable` behaves identically to one built by the empty constructor
under every operation. -/
theorem zero_struct_is_null {α : Type} (zero d : α) :
    goZeroNullable zero = Null zero ∧
    IsNull (goZeroNullable zero) = true ∧
    HasValue (goZeroNullable zero) = false ∧
    GetValue (goZeroNullable zero) = zero ∧
    OrElse (goZeroNullable zero) d = OrElse (Null zero) d :=
  ⟨rfl, rfl, rfl, rfl, rfl⟩

/-- Witness for C9 at the Go type `int`. -/
theorem zero_struct_is_null_witness :
    goZeroNullable (0 : Int) = Null 0 ∧
    IsNull (goZeroNullable (0 : Int)) = true ∧
    HasValue (goZeroNullable (0 : Int)) = false ∧
    GetValue (goZeroNullable (0 : Int)) = 0 ∧
    OrElse (goZeroNullable (0 : Int)) 7 = OrElse (Null 0) 7 :=
  zero_struct_is_null 0 7

/-- C3: For a concrete payload type without a custom `sql.Scanner`
(environment `dynScanEnv zeroD` for a zero value `zeroD`) and a non-nil
driver value `v`: if the runtime type of `v` is exactly the payload
type, `Scan` succeeds with a present instance holding `v`; if it
differs — even for semantically compatible numeric types —, `Scan`
fails with `ErrUnsupportedConversion` and leaves the instance absent
with zeroed payload. -/
theorem scan_strict_type_match (zeroD v : DynVal) (n : Nullable DynVal) :
    (typeOf v = typeOf zeroD →
      Scan (dynScanEnv zeroD) n (some v) = ({ value := v, valid := true }, none)) ∧
    (typeOf v ≠ typeOf zeroD →
      Scan (dynScanEnv zeroD) n (some v) =
        ({ value := zeroD, valid := false }, some GoError.unsupportedConversion)) := by
  constructor <;> intro h <;> simp [Scan, dynScanEnv, convertToType, h]

/-- Witness for C3: scanning a string into `Nullable[string]` succeeds
with the string; scanning a float64 into `Nullable[int]` fails with
`ErrUnsupportedConversion`. -/
theorem scan_strict_type_match_witness :
    Scan (dynScanEnv (DynVal.dString "")) (Null (DynVal.dString ""))
        (some (DynVal.dString "hi")) =
      ({ value := DynVal.dString "hi", valid := true }, none) ∧
    Scan (dynScanEnv (DynVal.dInt .i 0)) (Null (DynVal.dInt .i 0))
        (some (DynVal.dFloat64 314)) =
      ({ value := DynVal.dInt .i 0, valid := false }, some GoError.unsupportedConversion) :=
  ⟨(scan_strict_type_match (DynVal.dString "") (DynVal.dString "hi") (Null (DynVal.dString ""))).1 rfl,
   (scan_strict_type_match (DynVal.dInt .i 0) (DynVal.dFloat64 314) (Null (DynVal.dInt .i 0))).2
     (by decide)⟩

/-- C10: The read-side operations `OrElse`, `GetValue`, `IsNull`,
`HasValue`, `MarshalJSON`, `MarshalYAML` and `Value` take the receiver
by value and leave the caller's instance unchanged, while each of
`Scan`, `UnmarshalJSON` and `UnmarshalYAML` does mutate the receiver on
suitable inputs. -/
theorem read_ops_pure_mutators_mutate {α : Type} (n : Nullable α) (d : α)
    (c : JsonCodec α) (env : ValueEnv α) :
    (callOrElse n d).2 = n ∧
    (callGetValue n).2 = n ∧
    (callIsNull n).2 = n ∧
    (callHasValue n).2 = n ∧
    (callMarshalJSON c n).2 = n ∧
    (callMarshalYAML n).2 = n ∧
    (callValue env n).2 = n ∧
    (Scan (dynScanEnv (DynVal.dBool false)) (FromValue (DynVal.dBool true)) none).1 ≠
      FromValue (DynVal.dBool true) ∧
    (UnmarshalJSON boolCodec (FromValue true) "null").1 ≠ FromValue true ∧
    (UnmarshalYAML false (FromValue true) (.ok none)).1 ≠ FromValue true := by
  refine ⟨rfl, rfl, rfl, rfl, rfl, rfl, rfl, ?_, ?_, ?_⟩ <;> decide

/-- Witness for C10 at the Go type `bool`. -/
theorem read_ops_pure_mutators_mutate_witness :
    (callOrElse (FromValue true) false).2 = FromValue true ∧
    (callGetValue (FromValue true)).2 = FromValue true ∧
    (callIsNull (FromValue true)).2 = FromValue true ∧
    (callHasValue (FromValue true)).2 = FromValue true ∧
    (callMarshalJSON boolCodec (FromValue true)).2 = FromValue true ∧
    (callMarshalYAML (FromValue true)).2 = FromValue true ∧
    (callValue boolValueEnv (FromValue true)).2 = FromValue true ∧
    (Scan (dynScanEnv (DynVal.dBool false)) (FromValue (DynVal.dBool true)) none).1 ≠
      FromValue (DynVal.dBool true) ∧
    (UnmarshalJSON boolCodec (FromValue true) "null").1 ≠ FromValue true ∧
    (UnmarshalYAML false (FromValue true) (.ok none)).1 ≠ FromValue true :=
  read_ops_pure_mutators_mutate (FromValue true) false boolCodec boolValueEnv

/-- C1 counterexample: a JSON decode error does not reset the payload.
Unmarshalling malformed data `"x"` into a present `Nullable[bool]`
holding `true` fails and clears `valid`, but leaves the stale payload
`true` — observable through `GetValue`, and different from the zero
value of `bool`. -/
theorem stale_payload_after_json_error :
    UnmarshalJSON boolCodec (FromValue true) "x" =
      ({ value := true, valid := false },
       some (.errMsg "json: cannot unmarshal into bool: x")) ∧
    GetValue (UnmarshalJSON boolCodec (FromValue true) "x").1 = true ∧
    GetValue (UnmarshalJSON boolCodec (FromValue true) "x").1 ≠ boolCodec.zero := by
  refine ⟨rfl, rfl, ?_⟩
  decide

/-- C1 (amended): every failing mutation leaves `valid = false`, so the
stale payload is never observable through `OrElse`; the strict-conversion
`Scan` failure additionally resets the payload to the zero value; but
JSON and YAML decode errors leave the payload field at its previous
value (observable through `GetValue`), and a failing custom scanner
leaves whatever payload the scanner wrote. -/
theorem error_paths_clear_presence {α : Type} :
    (∀ (c : JsonCodec α) (n : Nullable α) (data : String) (r : Nullable α) (e : GoError),
      UnmarshalJSON c n data = (r, some e) →
        r.valid = false ∧ r.value = n.value ∧ ∀ d, OrElse r d = d) ∧
    (∀ (zero : α) (n : Nullable α) (um : Except GoError (Option α))
        (r : Nullable α) (e : GoError),
      UnmarshalYAML zero n um = (r, some e) →
        r.valid = false ∧ r.value = n.value ∧ ∀ d, OrElse r d = d) ∧
    (∀ (zeroD : DynVal) (n : Nullable DynVal) (v : DynVal)
        (r : Nullable DynVal) (e : GoError),
      Scan (dynScanEnv zeroD) n (some v) = (r, some e) →
        r = { value := zeroD, valid := false }) ∧
    (∀ (env : ScanEnv α) (n : Nullable α) (v : DynVal)
        (r : Nullable α) (e : GoError),
      Scan env n (some v) = (r, some e) → r.valid = false) := by
  refine ⟨?_, ?_, ?_, ?_⟩
  · intro c n data r e h
    unfold UnmarshalJSON at h
    split at h
    · simp at h
    · split at h
      · rw [Prod.mk.injEq] at h
        rw [← h.1]
        exact ⟨rfl, rfl, fun d => by simp [OrElse]⟩
      · simp at h
  · intro zero n um r e h
    unfold UnmarshalYAML at h
    split at h
    · rw [Prod.mk.injEq] at h
      rw [← h.1]
      exact ⟨rfl, rfl, fun d => by simp [OrElse]⟩
    · simp at h
    · simp at h
  · intro zeroD n v r e h
    by_cases hc : typeOf v = typeOf zeroD
    · rw [show Scan (dynScanEnv zeroD) n (some v) = ({ value := v, valid := true }, none) from by
        simp [Scan, dynScanEnv, convertToType, hc]] at h
      simp at h
    · rw [show Scan (dynScanEnv zeroD) n (some v) =
          ({ value := zeroD, valid := false }, some GoError.unsupportedConversion) from by
        simp [Scan, dynScanEnv, convertToType, hc]] at h
      injection h with h1 h2
      rw [← h1]
  · intro env n v r e h
    simp only [Scan] at h
    cases henv : env.scanHook with
    | some hk =>
      simp only [henv] at h
      cases hr : (hk n.value (some v)).2 with
      | none =>
        simp only [hr] at h
        simp at h
      | some e2 =>
        simp only [hr] at h
        injection h with h1 h2
        rw [← h1]
    | none =>
      simp only [henv] at h
      cases hr : (convertToType env.targetTy env.zero env.ofDyn (some v)).2 with
      | none =>
        simp only [hr] at h
        simp at h
      | some e2 =>
        simp only [hr] at h
        injection h with h1 h2
        rw [← h1]

/-- Witness for the amended C1 at a concrete failing JSON decode. -/
theorem error_paths_clear_presence_witness :
    ({ value := true, valid := false } : Nullable Bool).valid = false ∧
    OrElse ({ value := true, valid := false } : Nullable Bool) false = false := by
  have h := (@error_paths_clear_presence Bool).1 boolCodec (FromValue true) "zzz"
    { value := true, valid := false }
    (.errMsg "json: cannot unmarshal into bool: zzz") rfl
  exact ⟨h.1, h.2.2 false⟩

/-- C2 counterexample: a present payload of the platform-sized unsigned
type `uint` holding `2 ^ 63` does not make `Value()` fail — only the
`Uint64` kind is range-checked.  The `uint` kind goes through the
wrapping conversion `int64(rv.Uint())` and yields `-2 ^ 63` with no
error. -/
theorem value_uint_wraps_no_error :
    Value dynValueEnv { value := DynVal.dUint .u (2 ^ 63), valid := true } =
      .ok (some (.dvInt64 (-(2 ^ 63) : Int))) ∧
    ∀ e, Value dynValueEnv { value := DynVal.dUint .u (2 ^ 63), valid := true } ≠
      .error e := by
  have h1 : Value dynValueEnv { value := DynVal.dUint .u (2 ^ 63), valid := true } =
      .ok (some (.dvInt64 (-(2 ^ 63) : Int))) := by
    simp only [Value, dynValueEnv, convertToDriverValue, toInt64]
    norm_num
  refine ⟨h1, fun e he => ?_⟩
  rw [h1] at he
  exact Except.noConfusion he

/-- C2 (amended): for a present unsigned payload without a custom
`driver.Valuer`: any unsigned kind below `2 ^ 63` converts to the same
64-bit signed integer with no error; only the `uint64` kind is
range-checked, failing for values `≥ 2 ^ 63`; the platform-sized `uint`
kind instead wraps values in `[2 ^ 63, 2 ^ 64)` to `n - 2 ^ 64`
(a negative 64-bit integer) with no error. -/
theorem value_uint_behavior (k : UintKind) (n : Nat) :
    (n < 2 ^ 63 →
      Value dynValueEnv { value := DynVal.dUint k n, valid := true } =
        .ok (some (.dvInt64 (n : Int)))) ∧
    (2 ^ 63 ≤ n →
      Value dynValueEnv { value := DynVal.dUint .u64 n, valid := true } =
        .error (.errMsg "uint64 values with high bit set are not supported")) ∧
    (2 ^ 63 ≤ n → n < 2 ^ 64 →
      Value dynValueEnv { value := DynVal.dUint .u n, valid := true } =
        .ok (some (.dvInt64 ((n : Int) - 2 ^ 64)))) := by
  refine ⟨fun h => ?_, fun h => ?_, fun h h2 => ?_⟩
  · cases k <;>
      simp [Value, dynValueEnv, convertToDriverValue, toInt64] <;>
      omega
  · simp [Value, dynValueEnv, convertToDriverValue]
    omega
  · simp [Value, dynValueEnv, convertToDriverValue, toInt64]
    split <;> omega

/-- Witness for the amended C2 at `uint8 7`, `uint64 2 ^ 63` and
`uint (2 ^ 63 + 1)`. -/
theorem value_uint_behavior_witness :
    Value dynValueEnv { value := DynVal.dUint .u8 7, valid := true } =
      .ok (some (.dvInt64 (7 : Int))) ∧
    Value dynValueEnv { value := DynVal.dUint .u64 (2 ^ 63), valid := true } =
      .error (.errMsg "uint64 values with high bit set are not supported") ∧
    Value dynValueEnv { value := DynVal.dUint .u (2 ^ 63 + 1), valid := true } =
      .ok (some (.dvInt64 ((2 ^ 63 + 1 : Nat) - 2 ^ 64))) :=
  ⟨(value_uint_behavior .u8 7).1 (by norm_num),
   (value_uint_behavior .u64 (2 ^ 63)).2.1 le_rfl,
   (value_uint_behavior .u (2 ^ 63 + 1)).2.2 (by norm_num) (by norm_num)⟩

/-- C4 counterexample: the payload type `*bool` round-trips under
`encoding/json` (its codec is `optBoolCodec`), yet the present instance
holding a nil pointer does not survive the `Nullable` round-trip: it
marshals to the literal `null`, which unmarshals to an absent instance,
not back to the present one. -/
theorem json_roundtrip_fails_on_present_nil :
    (∀ (v : Option Bool) (t : String),
      optBoolCodec.marshal v = .ok t → optBoolCodec.unmarshal t = .ok v) ∧
    MarshalJSON optBoolCodec (FromValue (none : Option Bool)) = .ok "null" ∧
    UnmarshalJSON optBoolCodec (Null (none : Option Bool)) "null" =
      ({ value := none, valid := false }, none) ∧
    ({ value := none, valid := false } : Nullable (Option Bool)) ≠
      FromValue (none : Option Bool) := by
  refine ⟨optBoolCodec_roundtrip, rfl, rfl, ?_⟩
  decide

/-- C4 (amended): the JSON round-trip reconstructs `x` exactly for every
well-formed `x` (absent implies zeroed payload) whose payload type
round-trips under the underlying codec, provided additionally that when
`x` is present its payload does not itself marshal to the literal
`null` (as a nil pointer payload does): an absent `x` encodes to the
null token and decodes back absent with zeroed payload, and a present
`x` decodes back present with an equal payload, from any prior state of
the receiver. -/
theorem json_roundtrip_reconstructs {α : Type} (c : JsonCodec α) (x : Nullable α)
    (s : String)
    (hrt : ∀ v t, c.marshal v = .ok t → c.unmarshal t = .ok v)
    (hwf : x.valid = false → x.value = c.zero)
    (hms : MarshalJSON c x = .ok s)
    (hnn : x.valid = true → s ≠ "null") :
    ∀ y : Nullable α, UnmarshalJSON c y s = (x, none) := by
  intro y
  cases hx : x.valid with
  | false =>
    have hs : s = "null" := by
      unfold MarshalJSON at hms
      rw [hx] at hms
      simp at hms
      exact hms.symm
    subst hs
    unfold UnmarshalJSON
    rw [if_pos rfl]
    have hv := hwf hx
    cases x with
    | mk xv xb =>
      simp only at hx hv
      rw [hx, hv]
  | true =>
    have hm : c.marshal x.value = .ok s := by
      unfold MarshalJSON at hms
      rw [hx] at hms
      simpa using hms
    have hu : c.unmarshal s = .ok x.value := hrt x.value s hm
    unfold UnmarshalJSON
    rw [if_neg (hnn hx), hu]
    cases x with
    | mk xv xb =>
      simp only at hx
      rw [hx]

/-- Witness for the amended C4: round-tripping the present `*bool`
instance holding a non-nil pointer to `true`. -/
theorem json_roundtrip_reconstructs_witness :
    UnmarshalJSON optBoolCodec (Null (none : Option Bool)) "true" =
      (FromValue (some true), none) :=
  json_roundtrip_reconstructs optBoolCodec (FromValue (some true)) "true"
    optBoolCodec_roundtrip (fun h => absurd h (by decide)) rfl (fun _ => by decide)
    (Null (none : Option Bool))

end GoNullable
